import Mathlib

/-!
Verification development for the stdpipe catalogs module
(src/stdpipe/catalogs.py): shallow embedding of its photometric
augmentation formulas, the retrieval/retry control flow, and the
cross-matching routines, together with theorems settling the spec claims.

Magnitudes and coefficients are embedded as exact rationals wherever the
source only uses field arithmetic; the one formula involving a natural
logarithm (the gaiadr3syn magnitude errors) is embedded over the reals.
-/

/-- Horner evaluation of a polynomial given by its coefficient list with the
highest power first, exactly as np.polyval iterates `acc = acc*x + c`
over the coefficients. -/
def polyval (p : List ℚ) (x : ℚ) : ℚ :=
  p.foldl (fun acc c => acc * x + c) 0

/-! ## ps1 / atlas augmentation (catalogs.py lines 105-131) -/

/-- Input row of a ps1 or atlas catalog table: the native PanSTARRS-band
magnitudes used by the augmentation branch. -/
structure Ps1Row where
  gmag : ℚ
  rmag : ℚ
  imag : ℚ
  zmag : ℚ
deriving DecidableEq

/-- Columns added to a ps1 or atlas row by get_cat_vizier. -/
structure Ps1Aug where
  B : ℚ
  V : ℚ
  R : ℚ
  I : ℚ
  good : Bool
  g_SDSS : ℚ
  r_SDSS : ℚ
  i_SDSS : ℚ
  z_SDSS : ℚ
deriving DecidableEq

def pB1 : List ℚ := [0.10339527794499666, -0.492149523946056, 1.2093816061394638, 0.061925048331498395]
def pB2 : List ℚ := [-0.2571974580267897, 0.9211495207523038, -0.8243222108864755, 0.0619250483314976]
def pV1 : List ℚ := [-0.011452922062676726, -9.949308251868327e-05, -0.4650511584366353, -0.007076854914511554]
def pV2 : List ℚ := [0.012749150754020416, 0.057554580469724864, -0.09019328095355343, -0.007076854914511329]
def pR1 : List ℚ := [0.004905242602502597, -0.046545625824660514, 0.07830702317352654, -0.08438139204305026]
def pR2 : List ℚ := [-0.07782426914647306, 0.14090289318728444, -0.3634922073369279, -0.08438139204305031]
def pI1 : List ℚ := [-0.02274814414922734, 0.048462952908062046, -0.046965058282604985, -0.19478935830847588]
def pI2 : List ℚ := [0.025124060889537177, -0.048672562735374666, -1.199591061144479, -0.1947893583084762]

/-- Augmentation applied to each row of a ps1 or atlas table
(catalogs.py lines 118-131): Johnson-Cousins magnitudes from the fitted
polynomials, the `good` validity flag built by the three chained
conjunctions of lines 123-125, and the SDSS magnitudes. -/
def ps1_augment_row (r : Ps1Row) : Ps1Aug :=
  let gr := r.gmag - r.rmag
  let ri := r.rmag - r.imag
  let iz := r.imag - r.zmag
  let good1 := (decide (gr > -0.5) && decide (gr < 2.5))
  let good2 := good1 && (decide (ri > -0.5) && decide (ri < 2.0))
  let good3 := good2 && (decide (iz > -0.5) && decide (iz < 1.0))
  { B := r.gmag + polyval pB1 gr + polyval pB2 ri
    V := r.gmag + polyval pV1 gr + polyval pV2 ri
    R := r.rmag + polyval pR1 gr + polyval pR2 ri
    I := r.imag + polyval pI1 gr + polyval pI2 iz
    good := good3
    g_SDSS := r.gmag + 0.013 + 0.145 * gr + 0.019 * gr ^ 2
    r_SDSS := r.rmag - 0.001 + 0.004 * gr + 0.007 * gr ^ 2
    i_SDSS := r.imag - 0.005 + 0.011 * gr + 0.010 * gr ^ 2
    z_SDSS := r.zmag }

/-- Table-level ps1/atlas augmentation: the numpy column expressions act
elementwise, i.e. as a map over the rows. -/
def ps1_augment_table (t : List Ps1Row) : List Ps1Aug :=
  t.map ps1_augment_row

/-! ## gaiadr2 augmentation (catalogs.py lines 133-170) -/

def pB : List ℚ := [-0.05927724559795761, 0.4224326324292696, 0.626219707920836, -0.011211539139725953]
def pV : List ℚ := [0.0017624722901609662, 0.15671377090187089, 0.03123927839356175, 0.041448557506784556]
def pR : List ℚ := [0.02045449129406191, 0.054005149296716175, -0.3135475489352255, 0.020545083667168156]
def pI : List ℚ := [0.005092289380850884, 0.07027022935721515, -0.7025553064161775, -0.02747532184796779]

def pCB : List ℚ := [876.4047401692277, 5.114021693079334, -2.7332873314449326, 0]
def pCV : List ℚ := [98.03049528983964, 20.582521666713028, 0.8690079603974803, 0]
def pCR : List ℚ := [347.42190542330945, 39.42482430363565, 0.8626828845232541, 0]
def pCI : List ℚ := [79.4028706486939, 9.176899238787003, -0.7826315256072135, 0]

/-- Cubic G-band correction used for the bright regime 2 < G < 6
(catalogs.py line 153). -/
def gaiadr2_cubic (g : ℚ) : ℚ :=
  -0.047344 + 1.16405 * g - 0.046799 * g ^ 2 + 0.0035015 * g ^ 3

/-- G-magnitude correction of catalogs.py lines 152-156, embedded exactly as
the code performs it: start from a copy of G and overwrite it under each of
the three boolean masks in turn, every mask being computed from the
original magnitude. -/
def gaiadr2_gcorr (g : ℚ) : ℚ :=
  let c0 := g
  let c1 := if 2 < g ∧ g < 6 then gaiadr2_cubic g else c0
  let c2 := if 6 < g ∧ g < 16 then g - 0.0032 * (g - 6) else c1
  if 16 < g then g - 0.032 else c2

/-- Piecewise reading of the G-magnitude correction as the spec states it:
three disjoint open brightness regimes with their own corrections, with
every other magnitude left unchanged. -/
def gaiadr2_gcorr_piecewise (g : ℚ) : ℚ :=
  if 2 < g ∧ g < 6 then gaiadr2_cubic g
  else if 6 < g ∧ g < 16 then g - 0.0032 * (g - 6)
  else if 16 < g then g - 0.032
  else g

/-- Input row of a gaiadr2 table: Gaia G, BP and RP magnitudes and the
photometric excess factor column E(BR/RP). -/
structure GaiaDr2Row where
  Gmag : ℚ
  BPmag : ℚ
  RPmag : ℚ
  E_BR_RP : ℚ
deriving DecidableEq

/-- Columns added to a gaiadr2 row by get_cat_vizier (lines 158-170); the
corrected G magnitude from gaiadr2_gcorr feeds every one of the fits. -/
def gaiadr2_augment_row (r : GaiaDr2Row) : List (String × ℚ) :=
  let bp_rp := r.BPmag - r.RPmag
  let Cstar := r.E_BR_RP - polyval [-0.00445024, 0.0570293, -0.02810592, 1.20477819] bp_rp
  let g := gaiadr2_gcorr r.Gmag
  let B := g + polyval pB bp_rp + polyval pCB Cstar
  let V := g + polyval pV bp_rp + polyval pCV Cstar
  let R := g + polyval pR bp_rp + polyval pCR Cstar
  let I := g + polyval pI bp_rp + polyval pCI Cstar
  [ ("B", B), ("V", V), ("R", R), ("I", I),
    ("gmag", B - 0.108 - 0.485 * (B - V) - 0.032 * (B - V) ^ 2),
    ("rmag", V + 0.082 - 0.462 * (B - V) + 0.041 * (B - V) ^ 2),
    ("g_SDSS", g - (0.13518 - 0.46245 * bp_rp - 0.25171 * bp_rp ^ 2 + 0.021349 * bp_rp ^ 3)),
    ("r_SDSS", g - (-0.12879 + 0.24662 * bp_rp - 0.027464 * bp_rp ^ 2 - 0.049465 * bp_rp ^ 3)),
    ("i_SDSS", g - (-0.29676 + 0.64728 * bp_rp - 0.10141 * bp_rp ^ 2)) ]

/-! ## gaiadr3syn augmentation (catalogs.py lines 191-206)

The magnitude errors divide by a natural logarithm, so this branch is
embedded over the reals. -/

/-- Passbands whose synthetic fluxes carry error columns in the gaiadr3syn
catalog (the list of line 193). -/
inductive Band where
  | U | B | V | R | I | u | g | r | i | z | y
deriving DecidableEq

/-- Input row of a gaiadr3syn table: synthetic flux and flux error per
passband, plus the Sloan magnitudes used for the PS1 fits. -/
structure GaiaSynRow where
  F : Band → ℝ
  e_F : Band → ℝ
  gmag : ℝ
  rmag : ℝ
  imag : ℝ
  zmag : ℝ

/-- Columns added to a gaiadr3syn row by get_cat_vizier. -/
structure GaiaSynAug where
  e_mag : Band → ℝ
  g_ps1 : ℝ
  r_ps1 : ℝ
  i_ps1 : ℝ
  z_ps1 : ℝ

/-- Real-coefficient Horner evaluation, mirroring polyval for the branch
that lives over the reals. -/
def polyvalR (p : List ℝ) (x : ℝ) : ℝ :=
  p.foldl (fun acc c => acc * x + c) 0

/-- Augmentation applied to each row of a gaiadr3syn table
(catalogs.py lines 193-206): magnitude errors from flux errors, written
exactly as the code does (2.5 divided by log 10, times the flux error,
divided by the flux), and the fitted PS1 magnitudes. -/
noncomputable def gaiadr3syn_augment_row (row : GaiaSynRow) : GaiaSynAug :=
  let gr := row.gmag - row.rmag
  { e_mag := fun X => 2.5 / Real.log 10 * row.e_F X / row.F X
    g_ps1 := row.gmag + polyvalR [-0.030414391501015867, -0.09960002492299584, -0.002910024005294562] gr
    r_ps1 := row.rmag + polyvalR [-0.009566553708653305, 0.014924591443344211, -0.003928147919030857] gr
    i_ps1 := row.imag + polyvalR [-0.010802807724098494, 0.01124900218746879, 0.01274293783734852] gr
    z_ps1 := row.zmag + polyvalR [-0.0031896767661109523, 0.06537983414287968, 0.007695587806229381] gr }

/-- Table-level gaiadr3syn augmentation. -/
noncomputable def gaiadr3syn_augment_table (t : List GaiaSynRow) : List GaiaSynAug :=
  t.map gaiadr3syn_augment_row

/-! ## Structural model of the get_cat_vizier result pipeline

For the frame-effect claim the table is modelled structurally: an ordered
list of named columns with opaque per-column payloads, plus the metadata
dictionary. This is exactly the part of an astropy Table that
lines 93-101 of catalogs.py touch for every catalog. -/

/-- Table skeleton: named columns (in order, with payloads of an arbitrary
type V) and the metadata key/value mapping. -/
structure VTable (V : Type) where
  cols : List (String × V)
  meta : List (String × String)
deriving DecidableEq

/-- Dictionary-style metadata assignment: replace the value when the key is
present, append the pair otherwise. -/
def metaSet (m : List (String × String)) (k v : String) : List (String × String) :=
  if m.any (fun kv => kv.1 = k) then
    m.map (fun kv => if kv.1 = k then (k, v) else kv)
  else
    m ++ [(k, v)]

/-- Static catalog descriptor table of catalogs.py lines 21-33:
short name, Vizier identifier, display name. -/
def catalogsDict : List (String × String × String) :=
  [ ("ps1", "II/349/ps1", "PanSTARRS DR1"),
    ("gaiadr2", "I/345/gaia2", "Gaia DR2"),
    ("gaiaedr3", "I/350/gaiaedr3", "Gaia EDR3"),
    ("gaiadr3syn", "I/360/syntphot", "Gaia EDR3"),
    ("usnob1", "I/284/out", "USNO-B1"),
    ("gsc", "I/271/out", "GSC 2.2"),
    ("skymapper", "II/358/smss", "SkyMapper DR1.1"),
    ("vsx", "B/vsx/vsx", "AAVSO VSX"),
    ("apass", "II/336/apass9", "APASS DR9"),
    ("sdss", "V/147/sdss12", "SDSS DR12"),
    ("atlas", "J/ApJ/867/105/refcat2", "ATLAS-REFCAT2") ]

/-- Vizier identifier resolution (lines 68-77): known short names map
through the descriptor table, anything else is passed through. -/
def resolveVizierId (catalog : String) : String :=
  match catalogsDict.find? (fun e => e.1 = catalog) with
  | some e => e.2.1
  | none => catalog

/-- Display-name resolution (lines 68-77). -/
def resolveName (catalog : String) : String :=
  match catalogsDict.find? (fun e => e.1 = catalog) with
  | some e => e.2.2
  | none => catalog

/-- Column names of a table skeleton, in order. -/
def colNames (t : VTable V) : List String :=
  t.cols.map Prod.fst

/-- Coordinate-column fix of lines 100-101: when both underscore-prefixed
coordinate columns are present and no plain RAJ2000 column is, rename the
two of them in place. -/
def renameFix (t : VTable V) : VTable V :=
  if "_RAJ2000" ∈ colNames t ∧ "_DEJ2000" ∈ colNames t ∧ ¬ "RAJ2000" ∈ colNames t then
    { t with cols := t.cols.map (fun c =>
        (if c.1 = "_RAJ2000" then "RAJ2000" else if c.1 = "_DEJ2000" then "DEJ2000" else c.1, c.2)) }
  else t

/-- Name-level description of the coordinate-column fix, used to state what
happens to the column names of a pass-through catalog. -/
def renameFixNames (ns : List String) : List String :=
  if "_RAJ2000" ∈ ns ∧ "_DEJ2000" ∈ ns ∧ ¬ "RAJ2000" ∈ ns then
    ns.map (fun n => if n = "_RAJ2000" then "RAJ2000" else if n = "_DEJ2000" then "DEJ2000" else n)
  else ns

/-- Short names of the catalogs given an augmentation branch by the
if/elif chain of lines 105-206. -/
def augmentedCatalogs : List String :=
  ["ps1", "atlas", "gaiadr2", "skymapper", "apass", "gaiadr3syn"]

/-- Post-retrieval pipeline of get_cat_vizier (lines 93-208) at the
structural level: stamp the two metadata entries, apply the coordinate
fix, then hand supported catalogs to their augmentation branch (taken
here as a parameter, its per-branch numeric content being modelled
separately) and every other catalog through unchanged. -/
def vizierPost (augment : String → VTable V → VTable V) (catalog : String) (t : VTable V) : VTable V :=
  let t1 : VTable V := { t with meta := metaSet (metaSet t.meta "vizier_id" (resolveVizierId catalog)) "name" (resolveName catalog) }
  let t2 := renameFix t1
  if catalog ∈ augmentedCatalogs then augment catalog t2 else t2

/-- Concrete table of a catalog with no augmentation branch, whose
coordinate columns carry the underscore-prefixed names. -/
def sdssTableExample : VTable ℕ :=
  ⟨[("_RAJ2000", 1), ("_DEJ2000", 2)], []⟩

/-! ## Exceptions and the retrieval control flow -/

/-- Exception categories relevant to the module: the four classes named in
the skybot handler of catalogs.py line 254, plus a representative of every
other exception class. -/
inductive Exc where
  | runtimeError
  | keyError
  | connectionError
  | osError
  | other
deriving DecidableEq

/-- Predicate of the handler at line 254: an exception is caught there
exactly when it falls in the tuple (RuntimeError, KeyError,
ConnectionError, OSError). -/
def skybotCaught : Exc → Bool
  | .runtimeError => true
  | .keyError => true
  | .connectionError => true
  | .osError => true
  | .other => false

/-- Outcome of the query-with-retry prologue of get_cat_vizier
(lines 83-91): the cache flags of the Vizier calls actually made, whether
the error message of line 90 was printed, and either the propagated
exception or the optional result table. -/
structure VizierFetchOut (α : Type) where
  trace : List Bool
  printedError : Bool
  result : Except Exc (Option α)

/-- Query-with-retry prologue of get_cat_vizier (lines 83-91). The Vizier
client is abstracted as a function from the cache flag to either a raised
exception or a list of result sets; the first call uses the default cache
(flag true), the second call disables it. A call list of the wrong shape
(`not cats or not len(cats) == 1`) triggers the single retry; a second
wrong shape prints the error and returns None; no exception is raised on
that path, while an exception from either client call propagates. -/
def getCatVizierFetch (query : Bool → Except Exc (List α)) : VizierFetchOut α :=
  match query true with
  | .error e => ⟨[true], false, .error e⟩
  | .ok cats =>
    if cats.isEmpty || !(cats.length == 1) then
      match query false with
      | .error e => ⟨[true, false], false, .error e⟩
      | .ok cats2 =>
        if cats2.isEmpty || !(cats2.length == 1) then
          ⟨[true, false], true, .ok none⟩
        else
          ⟨[true, false], false, .ok cats2.head?⟩
    else
      ⟨[true], false, .ok cats.head?⟩

/-- Body of xmatch_objects (lines 223-230): the XMatch query result is
returned as is, under no exception handler, so a raised exception
propagates unchanged. -/
def xmatch_objects_model (call : Except Exc β) : Except Exc β :=
  call

/-! ## xmatch_skybot (catalogs.py lines 232-267) -/

/-- Modelled from the spec: astrometry.spherical_match, which is not under
src/. Per the spec it performs nearest-neighbor matching by great-circle
distance between catalog positions and input objects; positions are kept
abstract here and the distance function is passed in explicitly. This
helper returns the index of the position nearest to c together with its
distance (first one on ties), scanning the list front to back. -/
def argminDist (dist : P → P → ℚ) (c : P) : List P → Option (ℕ × ℚ)
  | [] => none
  | p :: ps =>
    match argminDist dist c ps with
    | none => some (0, dist p c)
    | some (i, d) => if dist p c ≤ d then some (0, dist p c) else some (i + 1, d)

/-- Modelled from the spec: the per-catalog-row outcome of
astrometry.spherical_match with search radius r: the index of the nearest
input position when it lies within r, nothing otherwise. -/
def nearestWithin (dist : P → P → ℚ) (ps : List P) (c : P) (r : ℚ) : Option ℕ :=
  match argminDist dist c ps with
  | some (i, d) => if d ≤ r then some i else none
  | none => none

/-- Identifier column built by lines 259-265 of catalogs.py: one entry per
returned ephemeris row, carrying the identifier of the matched input
object and masked (none) on unmatched rows. The matching radius is the
literal 10/3600 that line 259 passes to spherical_match. -/
def skybotIds (dist : P → P → ℚ) (objs : List (I × P)) (xcat : List P) : List (Option I) :=
  xcat.map (fun c =>
    match nearestWithin dist (objs.map Prod.snd) c (10 / 3600) with
    | some i => (objs.get? i).map Prod.fst
    | none => none)

/-- Absolute coordinate difference, the great-circle distance between two
points of a common great circle; used to evaluate the matching on
concrete inputs. -/
def coordDist (a b : ℚ) : ℚ :=
  if a ≤ b then b - a else a - b

/-- Successful result of xmatch_skybot: the radius passed to the SkyBot
cone search and the annotated identifier column of the returned table. -/
structure SkybotOut (P I : Type) where
  queryRadius : ℚ
  ids : List (Option I)
deriving DecidableEq

/-- Model of xmatch_skybot (lines 249-267). The center and extent sr0 of
the object list come from astrometry.get_objects_center, which is not
under src/, so the extent is taken as an input; the SkyBot client is
abstracted as a function from the cone radius to either a raised
exception or the list of ephemeris positions. The cone search uses radius
sr0 + 2.0*sr (line 253); an exception in the caught categories yields
None, any other exception propagates; on success the table is annotated
with the identifier column. -/
def xmatch_skybot_model (dist : P → P → ℚ) (objs : List (I × P)) (sr0 sr : ℚ)
    (call : ℚ → Except Exc (List P)) : Except Exc (Option (SkybotOut P I)) :=
  let radius := sr0 + 2.0 * sr
  match call radius with
  | .error e => if skybotCaught e then .ok none else .error e
  | .ok xcat => .ok (some ⟨radius, skybotIds dist objs xcat⟩)

/-! ## xmatch_ned (catalogs.py lines 269-297) -/

/-- Return value of xmatch_ned: either the initial plain Python list,
returned when it is still empty because no per-object query produced a
non-empty result, or the stacked table of annotated rows. -/
inductive NedReturn (R I : Type) where
  | pylist
  | table (rows : List (R × I))
deriving DecidableEq

/-- Query loop of xmatch_ned (lines 283-292): objects are queried one by
one, in order; a raised exception propagates at once (there is no
handler); a non-empty result is annotated with the identifier of the
originating object and appended. Returns the list of positions queried
together with the accumulated per-object tables. -/
def nedRun (query : P → Except Exc (List R)) : List (I × P) → List P × Except Exc (List (List (R × I)))
  | [] => ([], .ok [])
  | (i, p) :: rest =>
    match query p with
    | .error e => ([p], .error e)
    | .ok res =>
      let (tr, r) := nedRun query rest
      (p :: tr, r.map (fun ts => if res.isEmpty then ts else res.map (fun x => (x, i)) :: ts))

/-- Model of xmatch_ned (lines 283-297): run the query loop, then stack
the accumulated tables when there are any (the vstack of line 295) and
otherwise return the still-empty Python list. -/
def xmatch_ned_model (query : P → Except Exc (List R)) (objs : List (I × P)) :
    List P × Except Exc (NedReturn R I) :=
  let (tr, r) := nedRun query objs
  (tr, r.map (fun ts => if ts.isEmpty then .pylist else .table ts.flatten))

/-- Reading of xmatch_ned as the spec states it: keep the objects whose
query result is non-empty, stamp each of their result rows with the
originating identifier, and concatenate; the no-match case keeps the
plain list. -/
def xmatch_ned_spec (query : P → List R) (objs : List (I × P)) : NedReturn R I :=
  let kept := objs.filter (fun op => !(query op.2).isEmpty)
  if kept.isEmpty then .pylist
  else .table (kept.flatMap (fun op => (query op.2).map (fun x => (x, op.1))))

/-! ## Theorems settling the claims -/

/-- Claim C1: for the ps1 and atlas catalogs, the boolean good column added
by get_cat_vizier is true on a row iff all three color indices lie strictly
inside the valid domain of the fit: gmag-rmag in (-0.5, 2.5), rmag-imag in
(-0.5, 2.0) and imag-zmag in (-0.5, 1.0), for every row of the returned
table. -/
theorem ps1_good_iff_color_ranges (t : List Ps1Row) (r : Ps1Row) (h : r ∈ t) :
    ps1_augment_row r ∈ ps1_augment_table t ∧
    ((ps1_augment_row r).good = true ↔
      ((-0.5 < r.gmag - r.rmag ∧ r.gmag - r.rmag < 2.5) ∧
       (-0.5 < r.rmag - r.imag ∧ r.rmag - r.imag < 2.0) ∧
       (-0.5 < r.imag - r.zmag ∧ r.imag - r.zmag < 1.0))) := by
  refine ⟨List.mem_map_of_mem _ h, ?_⟩
  simp [ps1_augment_row, and_assoc]

/-- Witness for claim C1 at a concrete one-row table. -/
theorem ps1_good_iff_color_ranges_witness :
    (⟨1, 0.5, 0.2, 0⟩ : Ps1Row) ∈ [(⟨1, 0.5, 0.2, 0⟩ : Ps1Row)] ∧
    (ps1_augment_row ⟨1, 0.5, 0.2, 0⟩ ∈ ps1_augment_table [⟨1, 0.5, 0.2, 0⟩] ∧
     ((ps1_augment_row ⟨1, 0.5, 0.2, 0⟩).good = true ↔
       ((-0.5 < (1 : ℚ) - 0.5 ∧ (1 : ℚ) - 0.5 < 2.5) ∧
        (-0.5 < (0.5 : ℚ) - 0.2 ∧ (0.5 : ℚ) - 0.2 < 2.0) ∧
        (-0.5 < (0.2 : ℚ) - 0 ∧ (0.2 : ℚ) - 0 < 1.0)))) :=
  ⟨List.mem_singleton.mpr rfl,
   ps1_good_iff_color_ranges [⟨1, 0.5, 0.2, 0⟩] ⟨1, 0.5, 0.2, 0⟩ (List.mem_singleton.mpr rfl)⟩

/-- Claim C2: for the gaiadr3syn catalog, the magnitude-error column of
every passband on every row equals 2.5/ln(10) times the ratio of the flux
error to the flux. -/
theorem gaiadr3syn_mag_error_formula (row : GaiaSynRow) (X : Band) :
    (gaiadr3syn_augment_row row).e_mag X = 2.5 / Real.log 10 * (row.e_F X / row.F X) := by
  simp [gaiadr3syn_augment_row, mul_div_assoc]

/-- Helper: the sequential masked assignments of lines 152-156 compute the
piecewise function the spec describes. -/
theorem gaiadr2_gcorr_eq_piecewise (g : ℚ) : gaiadr2_gcorr g = gaiadr2_gcorr_piecewise g := by
  unfold gaiadr2_gcorr gaiadr2_gcorr_piecewise
  by_cases h2 : 2 < g ∧ g < 6
  · have h6 : ¬(6 < g ∧ g < 16) := fun h => absurd h.1 (by linarith [h2.2])
    have h16 : ¬(16 < g) := by linarith [h2.2]
    simp [h2, h6, h16]
  · by_cases h6 : 6 < g ∧ g < 16
    · have h16 : ¬(16 < g) := by linarith [h6.2]
      simp [h2, h6, h16]
    · by_cases h16 : 16 < g
      · simp [h2, h6, h16]
      · simp [h2, h6, h16]

/-- Claim C3: the gaiadr2 G-magnitude correction equals the piecewise
function with the cubic on 2 < G < 6, the linear drift on 6 < G < 16 and
the constant shift for G > 16, and every magnitude outside the three open
ranges, the boundaries G = 2, 6, 16 included, is left unchanged. -/
theorem gaiadr2_gcorr_piecewise_spec :
    (∀ g : ℚ, gaiadr2_gcorr g =
      (if 2 < g ∧ g < 6 then -0.047344 + 1.16405 * g - 0.046799 * g ^ 2 + 0.0035015 * g ^ 3
       else if 6 < g ∧ g < 16 then g - 0.0032 * (g - 6)
       else if 16 < g then g - 0.032
       else g)) ∧
    gaiadr2_gcorr 2 = 2 ∧ gaiadr2_gcorr 6 = 6 ∧ gaiadr2_gcorr 16 = 16 :=
  ⟨fun g => gaiadr2_gcorr_eq_piecewise g, by decide, by decide, by decide⟩

/-- Claim C6: when the first Vizier query does not return exactly one
result set, get_cat_vizier makes exactly one more query, with the cache
disabled, whatever that retry returns; and when the retry again fails to
return exactly one result set, the error message is printed and None is
returned, with no exception raised on that path. The two scenarios are
stated over two independent client behaviors q1 and q2. -/
theorem getCatVizier_retry_once {α : Type} (q1 q2 : Bool → List α)
    (h1 : (q1 true).length ≠ 1) (h2 : (q2 true).length ≠ 1) (h3 : (q2 false).length ≠ 1) :
    (getCatVizierFetch (fun b => .ok (q1 b))).trace = [true, false] ∧
    (getCatVizierFetch (fun b => .ok (q2 b))).trace = [true, false] ∧
    (getCatVizierFetch (fun b => .ok (q2 b))).result = .ok none ∧
    (getCatVizierFetch (fun b => .ok (q2 b))).printedError = true := by
  have e1 : ((q1 true).isEmpty || !((q1 true).length == 1)) = true := by
    simp [h1]
  have e2 : ((q2 true).isEmpty || !((q2 true).length == 1)) = true := by
    simp [h2]
  have e3 : ((q2 false).isEmpty || !((q2 false).length == 1)) = true := by
    simp [h3]
  refine ⟨?_, ?_, ?_, ?_⟩ <;>
    simp [getCatVizierFetch, e1, e2, e3, apply_ite VizierFetchOut.trace]

/-- Witness for claim C6: a client returning an empty result list on every
call (all three hypotheses coincide at this behavior). -/
theorem getCatVizier_retry_once_witness :
    (([] : List ℕ).length ≠ 1) ∧
    ((getCatVizierFetch (fun _ => .ok ([] : List ℕ))).trace = [true, false] ∧
     (getCatVizierFetch (fun _ => .ok ([] : List ℕ))).trace = [true, false] ∧
     (getCatVizierFetch (fun _ => .ok ([] : List ℕ))).result = .ok none ∧
     (getCatVizierFetch (fun _ => .ok ([] : List ℕ))).printedError = true) :=
  ⟨by decide,
   getCatVizier_retry_once (fun _ => []) (fun _ => []) (by decide) (by decide) (by decide)⟩

/-- Claim C7: the skybot handler catches exactly the RuntimeError,
KeyError, ConnectionError and OSError categories and maps them to a None
result, any other exception from the cone search propagating, while an
exception raised by the Vizier, XMatch or NED clients propagates out of
get_cat_vizier, xmatch_objects and xmatch_ned unhandled. -/
theorem service_exception_handling :
    (skybotCaught .runtimeError = true ∧ skybotCaught .keyError = true ∧
     skybotCaught .connectionError = true ∧ skybotCaught .osError = true ∧
     skybotCaught .other = false) ∧
    (∀ (P I : Type) (dist : P → P → ℚ) (objs : List (I × P)) (sr0 sr : ℚ) (e : Exc),
      xmatch_skybot_model dist objs sr0 sr (fun _ => .error e) =
        if skybotCaught e then .ok none else .error e) ∧
    (∀ (α : Type) (e : Exc),
      (getCatVizierFetch (fun _ => (.error e : Except Exc (List α)))).result = .error e) ∧
    (∀ (β : Type) (e : Exc), xmatch_objects_model (.error e : Except Exc β) = .error e) ∧
    (∀ (P R I : Type) (e : Exc) (i : I) (p : P) (rest : List (I × P)),
      (xmatch_ned_model (fun _ => (.error e : Except Exc (List R))) ((i, p) :: rest)).2 =
        .error e) := by
  refine ⟨⟨rfl, rfl, rfl, rfl, rfl⟩, ?_, ?_, ?_, ?_⟩ <;> intros <;> rfl

/-- Helper: on a successful cone search the model returns the annotated
table, the cone radius being the extent plus twice the tolerance. -/
theorem xmatch_skybot_model_ok (P I : Type) (dist : P → P → ℚ) (objs : List (I × P))
    (sr0 sr : ℚ) (xcat : List P) :
    xmatch_skybot_model dist objs sr0 sr (fun _ => .ok xcat) =
      .ok (some ⟨sr0 + 2 * sr, skybotIds dist objs xcat⟩) := by
  have h2 : (2.0 : ℚ) = 2 := by norm_num
  simp [xmatch_skybot_model, h2]

/-- Claim C4 at its failing input: a single object with identifier 0 at
position 0, a match tolerance sr of 1/3600 degrees, and one ephemeris row
at distance 5/3600 degrees, farther than sr. The code still annotates the
row with the identifier of the object, because line 259 of catalogs.py
passes the literal 10/3600 to the matcher instead of sr, contradicting
the docstring of xmatch_skybot. Positions lie on a common great circle,
where the angular separation is the coordinate difference. -/
theorem skybot_hardcoded_radius_bug :
    skybotIds coordDist [((0 : ℕ), (0 : ℚ))] [(5 / 3600 : ℚ)] = [some 0] ∧
    ¬ (coordDist (0 : ℚ) (5 / 3600) ≤ 1 / 3600) ∧
    xmatch_skybot_model coordDist [((0 : ℕ), (0 : ℚ))] 1 (1 / 3600)
        (fun _ => .ok [(5 / 3600 : ℚ)]) =
      .ok (some ⟨1 + 2 * (1 / 3600), [some 0]⟩) := by
  refine ⟨?_, ?_, ?_⟩
  · norm_num [skybotIds, nearestWithin, argminDist, coordDist]
  · norm_num [coordDist]
  · rw [xmatch_skybot_model_ok]
    norm_num [skybotIds, nearestWithin, argminDist, coordDist]

/-- Counterexample to claim C5: with an object-list extent of 1 degree and
a match tolerance of 1 degree, the cone search goes out with radius 3
degrees, not extent plus tolerance = 2 degrees. -/
theorem skybot_cone_radius_counterexample :
    xmatch_skybot_model coordDist ([] : List (ℕ × ℚ)) 1 1
        (fun _ => .ok ([] : List ℚ)) = .ok (some ⟨3, []⟩) ∧
    (3 : ℚ) ≠ 1 + 1 := by
  constructor
  · rw [xmatch_skybot_model_ok]
    norm_num [skybotIds]
  · norm_num

/-- Claim C5 as amended: the SkyBot cone search uses a radius equal to the
full object-list extent sr0 plus twice the match tolerance sr. -/
theorem skybot_cone_radius (P I : Type) (dist : P → P → ℚ) (objs : List (I × P))
    (sr0 sr : ℚ) (xcat : List P) :
    xmatch_skybot_model dist objs sr0 sr (fun _ => .ok xcat) =
      .ok (some ⟨sr0 + 2 * sr, skybotIds dist objs xcat⟩) :=
  xmatch_skybot_model_ok P I dist objs sr0 sr xcat

/-- Helper: the coordinate-column fix never changes the column payloads. -/
theorem renameFix_vals (V : Type) (t : VTable V) :
    (renameFix t).cols.map Prod.snd = t.cols.map Prod.snd := by
  unfold renameFix
  split_ifs with h
  · simp [List.map_map, Function.comp]
  · rfl

/-- Helper: the coordinate-column fix acts on the column names as its
name-level description. -/
theorem renameFix_names (V : Type) (t : VTable V) :
    colNames (renameFix t) = renameFixNames (colNames t) := by
  unfold renameFix renameFixNames colNames
  split_ifs with h
  · simp [List.map_map, Function.comp]
  · rfl

/-- Helper: the coordinate-column fix never touches the metadata. -/
theorem renameFix_meta (V : Type) (t : VTable V) : (renameFix t).meta = t.meta := by
  unfold renameFix
  split_ifs with h
  · rfl
  · rfl

/-- Counterexample to claim C8: the sdss catalog receives no augmentation
branch, yet get_cat_vizier does not return its table unmodified: the two
metadata entries are stamped and the coordinate columns are renamed. -/
theorem vizier_unsupported_changed :
    vizierPost (fun _ t => t) "sdss" sdssTableExample ≠ sdssTableExample := by
  decide

/-- Claim C8 as amended: for a successfully retrieved catalog with no
augmentation branch, the returned table keeps exactly the original column
payloads in order; the only changes are the name-level coordinate-column
fix and the two stamped metadata entries. -/
theorem vizier_unsupported_passthrough (V : Type) (augment : String → VTable V → VTable V)
    (catalog : String) (t : VTable V) (h : ¬ catalog ∈ augmentedCatalogs) :
    (vizierPost augment catalog t).cols.map Prod.snd = t.cols.map Prod.snd ∧
    colNames (vizierPost augment catalog t) = renameFixNames (colNames t) ∧
    (vizierPost augment catalog t).meta =
      metaSet (metaSet t.meta "vizier_id" (resolveVizierId catalog)) "name"
        (resolveName catalog) := by
  refine ⟨?_, ?_, ?_⟩
  · simp only [vizierPost]
    rw [if_neg h]
    exact renameFix_vals V _
  · simp only [vizierPost]
    rw [if_neg h]
    exact renameFix_names V _
  · simp only [vizierPost]
    rw [if_neg h]
    exact renameFix_meta V _

/-- Witness for claim C8 as amended, at the sdss catalog and the concrete
two-column table. -/
theorem vizier_unsupported_passthrough_witness :
    ¬ "sdss" ∈ augmentedCatalogs ∧
    ((vizierPost (fun _ t => t) "sdss" sdssTableExample).cols.map Prod.snd =
        sdssTableExample.cols.map Prod.snd ∧
     colNames (vizierPost (fun _ t => t) "sdss" sdssTableExample) =
        renameFixNames (colNames sdssTableExample) ∧
     (vizierPost (fun _ t => t) "sdss" sdssTableExample).meta =
        metaSet (metaSet sdssTableExample.meta "vizier_id" (resolveVizierId "sdss")) "name"
          (resolveName "sdss")) :=
  ⟨by decide, vizier_unsupported_passthrough ℕ (fun _ t => t) "sdss" sdssTableExample (by decide)⟩

/-- Helper: closed form of the NED query loop under an exception-free
client: the positions are queried in input order, and the accumulated
tables are the stamped results of the objects whose query came back
non-empty, in input order. -/
theorem nedRun_pure (P R I : Type) (query : P → List R) (objs : List (I × P)) :
    nedRun (fun p => (.ok (query p) : Except Exc (List R))) objs =
      (objs.map Prod.snd,
       .ok ((objs.filter (fun op => !(query op.2).isEmpty)).map
         (fun op => (query op.2).map (fun x => (x, op.1))))) := by
  induction objs with
  | nil => rfl
  | cons op rest ih =>
    obtain ⟨i, p⟩ := op
    simp only [nedRun, ih, List.map_cons, List.filter_cons]
    by_cases hq : (query p).isEmpty
    · simp [hq, Except.map]
    · simp [hq, Except.map]

/-- Claim C9: under an exception-free client, xmatch_ned queries the
database exactly once per input object, in input order, and its output
concatenates exactly the non-empty per-object results, each of their rows
stamped with the identifier of the originating object. -/
theorem ned_per_object_queries (P R I : Type) (query : P → List R) (objs : List (I × P)) :
    (xmatch_ned_model (fun p => (.ok (query p) : Except Exc (List R))) objs).1 =
      objs.map Prod.snd ∧
    (xmatch_ned_model (fun p => (.ok (query p) : Except Exc (List R))) objs).2 =
      .ok (xmatch_ned_spec query objs) := by
  have h := nedRun_pure P R I query objs
  constructor
  · simp [xmatch_ned_model, h]
  · simp only [xmatch_ned_model, h, Except.map, xmatch_ned_spec]
    generalize objs.filter (fun op => !(query op.2).isEmpty) = K
    cases K with
    | nil => rfl
    | cons a l => simp [List.flatMap_def]

/-- Claim C10: when every per-object query comes back empty, in particular
on an empty input list, xmatch_ned returns the still-empty plain Python
list, a value distinct from any stacked table and never None. -/
theorem ned_no_match_empty_list (P R I : Type) (query : P → List R) (objs : List (I × P))
    (h : objs.all (fun op => (query op.2).isEmpty) = true) :
    (xmatch_ned_model (fun p => (.ok (query p) : Except Exc (List R))) objs).2 =
      .ok NedReturn.pylist ∧
    NedReturn.table ([] : List (R × I)) ≠ NedReturn.pylist := by
  constructor
  · have hp := nedRun_pure P R I query objs
    have hfilter : objs.filter (fun op => !(query op.2).isEmpty) = [] := by
      rw [List.filter_eq_nil_iff]
      intro op hop
      simp [List.all_eq_true.mp h op hop]
    simp [xmatch_ned_model, hp, hfilter, Except.map]
  · intro hcon
    cases hcon

/-- Witness for claim C10: one object whose query returns nothing. -/
theorem ned_no_match_empty_list_witness :
    ([((0 : ℕ), (0 : ℕ))].all (fun op => ((fun _ : ℕ => ([] : List ℕ)) op.2).isEmpty) = true) ∧
    ((xmatch_ned_model (fun p => (.ok ((fun _ : ℕ => ([] : List ℕ)) p) : Except Exc (List ℕ)))
        [((0 : ℕ), (0 : ℕ))]).2 = .ok NedReturn.pylist ∧
     NedReturn.table ([] : List (ℕ × ℕ)) ≠ NedReturn.pylist) :=
  ⟨by decide, ned_no_match_empty_list ℕ ℕ ℕ (fun _ => []) [((0 : ℕ), (0 : ℕ))] (by decide)⟩
